import Mathlib

/-!
A shallow embedding of `src/dbt_py/main.py` from the `dbt-py` repository.

The shim has three pieces:

* `_import_submodules` — recursively import every submodule/subpackage of a
  package via `pkgutil.walk_packages`;
* `_get_context_modules_shim` — a `functools.cache`-memoized function that
  resolves configuration from the environment, imports the configured custom
  package, and merges it into dbt's context-module registry;
* `main` — installs the shim as dbt's `get_context_modules`, invokes the dbt
  runner on `sys.argv[1:]`, and maps the result to a process exit code.

Python's import machinery is modelled by a tree: a dotted package reference
resolves to a `PyTree`, whose nodes are plain modules (no `__path__`),
packages (with named children, as enumerated by `pkgutil.walk_packages`), or
names whose import raises an exception (`ModuleNotFoundError` or any other
exception, e.g. one raised by a submodule's own import-time code).
-/

/-- A Python exception as far as the shim can distinguish them:
`ModuleNotFoundError` (with its message) versus any other exception. -/
inductive PyExc where
  | moduleNotFound (msg : String)
  | other (msg : String)
deriving Repr, DecidableEq

/-- The import behaviour of a dotted module reference.

* `module` — imports fine and has no `__path__` attribute (a plain module);
* `package cs` — imports fine and `pkgutil.walk_packages(__path__)` yields
  the children `cs` (child simple name paired with the child's behaviour);
* `raises e` — `importlib.import_module` on this name raises `e`. -/
inductive PyTree where
  | module : PyTree
  | package (children : List (String × PyTree)) : PyTree
  | raises (e : PyExc) : PyTree

/-- The `is_pkg` flag that `pkgutil.walk_packages` reports for a child. -/
def PyTree.isPkg : PyTree → Bool
  | .package _ => true
  | _ => false

mutual

/-- Embedding of `_import_submodules` (src/dbt_py/main.py:21-43).

`t` is the import behaviour of the dotted name `packageName`; the returned
dictionary (modelled as a key-ordered association list) maps each imported
full dotted name to its module object.  A raised exception anywhere aborts
the whole computation, exactly as in Python. -/
def import_submodules (t : PyTree) (packageName : String) (recursive : Bool) :
    Except PyExc (List (String × PyTree)) :=
  match t with
  | .raises e => .error e
  | .module => .ok []
  | .package children => import_submodules_walk children packageName recursive

/-- The `for loader, name, is_pkg in pkgutil.walk_packages(...)` loop body of
`_import_submodules` (src/dbt_py/main.py:36-41). -/
def import_submodules_walk (cs : List (String × PyTree)) (packageName : String)
    (recursive : Bool) : Except PyExc (List (String × PyTree)) :=
  match cs with
  | [] => .ok []
  | (name, child) :: rest =>
    let fullName := packageName ++ "." ++ name
    match child with
    | .raises e => .error e
    | c =>
      match (if recursive && c.isPkg then import_submodules c fullName true else .ok []) with
      | .error e => .error e
      | .ok sub =>
        match import_submodules_walk rest packageName recursive with
        | .error e => .error e
        | .ok restResults => .ok (((fullName, c) :: sub) ++ restResults)

end

mutual

/-- The full dotted names of every submodule and subpackage reachable from a
package (the names `_import_submodules` is supposed to import). -/
def reachableNames (t : PyTree) (packageName : String) : List String :=
  match t with
  | .module => []
  | .raises _ => []
  | .package children => reachableNamesWalk children packageName

/-- One level of children of `reachableNames`. -/
def reachableNamesWalk (cs : List (String × PyTree)) (packageName : String) : List String :=
  match cs with
  | [] => []
  | (name, child) :: rest =>
    let fullName := packageName ++ "." ++ name
    ((fullName :: (if child.isPkg then reachableNames child fullName else []))
      ++ reachableNamesWalk rest packageName)

end

/-! ## dbt's context-module registry and the shim -/

/-- A value stored in dbt's context-module registry: either an entry provided
by the host (dbt's own whitelisted modules, opaque to the shim) or the custom
module object the shim inserts. -/
inductive RegVal where
  | hostEntry (tag : String)
  | moduleEntry (m : PyTree)

/-- dbt's context-module registry: a Python dict from namespace name to
value, modelled as an insertion-ordered association list with unique keys. -/
abbrev Registry := List (String × RegVal)

/-- Python dict assignment `d[k] = v`: overwrite in place if the key exists
(keys are unique, so the first occurrence is the only one), otherwise append. -/
def pyDictSet (d : Registry) (k : String) (v : RegVal) : Registry :=
  match d with
  | [] => [(k, v)]
  | (k', v') :: rest => if k' = k then (k, v) :: rest else (k', v') :: pyDictSet rest k v

/-- Python dict lookup `d.get(k)`. -/
def pyDictGet (d : Registry) (k : String) : Option RegVal :=
  match d with
  | [] => none
  | (k', v) :: rest => if k' = k then some v else pyDictGet rest k

/-- The environment variables the shim reads (src/dbt_py/main.py:53-54);
`none` models an unset variable. -/
structure Env where
  dbtPyPackageRoot : Option String
  dbtPyPackageName : Option String

/-- Python's `os.environ.get(var) or default`: the default is used when the
variable is unset (`None`) or set to the empty string (both falsy). -/
def envGetOr (v : Option String) (default : String) : String :=
  match v with
  | none => default
  | some s => if s = "" then default else s

/-- Embedding of `package_root = os.environ.get("DBT_PY_PACKAGE_ROOT") or "custom"`
(src/dbt_py/main.py:53). -/
def packageRoot (env : Env) : String :=
  envGetOr env.dbtPyPackageRoot "custom"

/-- Embedding of `package_name = os.environ.get("DBT_PY_PACKAGE_NAME") or package_root`
(src/dbt_py/main.py:54). -/
def packageName (env : Env) : String :=
  envGetOr env.dbtPyPackageName (packageRoot env)

/-- The exact single-line warning `_get_context_modules_shim` prints when the
custom package cannot be found (src/dbt_py/main.py:66-71), ANSI colour codes
included. -/
def warningText : String :=
  "\x1b[1;33mWarning: dbt-py was invoked, but no custom package was found.\x1b[0m"

/-- The observable outcome of one (uncached) run of the shim body: either a
normal return carrying the registry and the lines printed to stdout, or a
propagated Python exception. -/
inductive ShimOutcome where
  | ok (registry : Registry) (printed : List String)
  | raised (e : PyExc) (printed : List String)

/-- Embedding of the body of `_get_context_modules_shim`
(src/dbt_py/main.py:46-73), without the `functools.cache` layer.

`world` gives the import behaviour of every dotted reference;
`hostModules` is what dbt's own `get_context_modules()` returns.
The `try` block runs `_import_submodules(package_root)` and then
`modules[package_name] = importlib.import_module(package_root)`; only
`ModuleNotFoundError` is caught, in which case the warning is printed and the
registry is returned unchanged. -/
def get_context_modules_shim (env : Env) (world : String → PyTree)
    (hostModules : Registry) : ShimOutcome :=
  let root := packageRoot env
  let name := packageName env
  let modules := hostModules
  match import_submodules (world root) root true with
  | .ok _ =>
      -- the second `importlib.import_module(package_root)` returns the
      -- already-imported top-level module object
      .ok (pyDictSet modules name (.moduleEntry (world root))) []
  | .error (.moduleNotFound _) => .ok modules [warningText]
  | .error e => .raised e []

/-- The `functools.cache` layer on `_get_context_modules_shim`
(src/dbt_py/main.py:46): the function takes no arguments, so the cache is
keyed by nothing.  A cache hit returns the stored registry without running
the body (no environment read, no import scan, no printing); a normal return
populates the cache; a raised exception is not cached. -/
def get_context_modules_shim_cached (cache : Option Registry) (env : Env)
    (world : String → PyTree) (hostModules : Registry) :
    ShimOutcome × Option Registry :=
  match cache with
  | some r => (.ok r [], some r)
  | none =>
      match get_context_modules_shim env world hostModules with
      | .ok r p => (.ok r p, some r)
      | .raised e p => (.raised e p, none)

/-! ## The invocation adapter (`main`) -/

/-- The `dbtRunnerResult` object as consumed by `main`: a `success` flag and an optional
exception (carried opaquely as its message). -/
structure DbtRunnerResult where
  success : Bool
  exception : Option String

/-- The exit code `main` passes to `SystemExit` (src/dbt_py/main.py:86-90). -/
def mainExitCode (result : DbtRunnerResult) : Nat :=
  if result.success then 0
  else if result.exception = none then 1
  else 2

/-- The externally observable events of one run of `main`, in order. -/
inductive MainEvent where
  | installShimOverride
  | invokeDbt (args : List String)
  | exitWith (code : Nat)
deriving Repr, DecidableEq

/-- Embedding of `main` (src/dbt_py/main.py:76-90) as the ordered trace of
its observable events.  `argv` is the full `sys.argv` (program name first);
`invoke` is `dbt.cli.main.dbtRunner().invoke`.

Line by line: install `_get_context_modules_shim` over
`dbt.context.base.get_context_modules`; call the runner on `sys.argv[1:]`;
raise `SystemExit` with the mapped exit code. -/
def DbtPy.main (argv : List String) (invoke : List String → DbtRunnerResult) :
    List MainEvent :=
  let installEvent := MainEvent.installShimOverride
  let args := argv.drop 1
  let result := invoke args
  [installEvent, .invokeDbt args, .exitWith (mainExitCode result)]

/-! ## Substring containment (for reasoning about the warning text) -/

/-- Whether the character list `sub` is a prefix of `s`. -/
def charsStartWith : List Char → List Char → Bool
  | [], _ => true
  | _ :: _, [] => false
  | a :: as, b :: bs => a = b && charsStartWith as bs

/-- Whether the character list `sub` occurs contiguously inside `s`. -/
def charsContain (sub : List Char) : List Char → Bool
  | [] => charsStartWith sub []
  | c :: cs => charsStartWith sub (c :: cs) || charsContain sub cs

/-- Whether the string `sub` occurs as a substring of `s`. -/
def strContains (s sub : String) : Bool :=
  charsContain sub.data s.data

/-! ## Helper lemmas -/

/-- Setting one key of a dict leaves every other key untouched. -/
theorem pyDictGet_pyDictSet_ne (d : Registry) (k k' : String) (v : RegVal)
    (h : k' ≠ k) : pyDictGet (pyDictSet d k v) k' = pyDictGet d k' := by
  induction d with
  | nil => simp [pyDictSet, pyDictGet, Ne.symm h]
  | cons p rest ih =>
    obtain ⟨k'', v''⟩ := p
    by_cases hk : k'' = k
    · subst hk
      simp [pyDictSet, pyDictGet, Ne.symm h]
    · simp [pyDictSet, pyDictGet, hk, ih]

mutual

/-- On success, `_import_submodules` imports exactly the submodules and
subpackages reachable from the package, in discovery order. -/
theorem import_submodules_ok_keys (t : PyTree) (packageName : String)
    (l : List (String × PyTree))
    (h : import_submodules t packageName true = .ok l) :
    l.map Prod.fst = reachableNames t packageName := by
  match t with
  | .raises e => simp [import_submodules] at h
  | .module =>
    simp only [import_submodules, Except.ok.injEq] at h
    subst h
    simp [reachableNames]
  | .package children =>
    have hw : import_submodules_walk children packageName true = .ok l := by
      simpa [import_submodules] using h
    have := import_submodules_walk_ok_keys children packageName l hw
    simpa [reachableNames] using this

/-- One level of children of `import_submodules_ok_keys`. -/
theorem import_submodules_walk_ok_keys (cs : List (String × PyTree))
    (packageName : String) (l : List (String × PyTree))
    (h : import_submodules_walk cs packageName true = .ok l) :
    l.map Prod.fst = reachableNamesWalk cs packageName := by
  match cs with
  | [] =>
    simp only [import_submodules_walk, Except.ok.injEq] at h
    subst h
    simp [reachableNamesWalk]
  | (name, child) :: rest =>
    match child with
    | .raises e => simp [import_submodules_walk] at h
    | .module =>
      cases hrest : import_submodules_walk rest packageName true with
      | error e => simp [import_submodules_walk, PyTree.isPkg, hrest] at h
      | ok restResults =>
        simp [import_submodules_walk, PyTree.isPkg, hrest] at h
        have ih := import_submodules_walk_ok_keys rest packageName restResults hrest
        subst h
        simp [reachableNamesWalk, PyTree.isPkg, ih]
    | .package ch =>
      cases hsub : import_submodules (.package ch) (packageName ++ "." ++ name) true with
      | error e => simp [import_submodules_walk, PyTree.isPkg, hsub] at h
      | ok sub =>
        cases hrest : import_submodules_walk rest packageName true with
        | error e => simp [import_submodules_walk, PyTree.isPkg, hsub, hrest] at h
        | ok restResults =>
          simp [import_submodules_walk, PyTree.isPkg, hsub, hrest] at h
          have ihsub := import_submodules_ok_keys (.package ch)
            (packageName ++ "." ++ name) sub hsub
          have ihrest := import_submodules_walk_ok_keys rest packageName restResults hrest
          subst h
          simp [reachableNamesWalk, PyTree.isPkg, ihsub, ihrest]

end

/-! ## Claim theorems -/

/-- C1: `main` maps the invocation result to an exit code exactly as
`success = true → 0`, `success = false, exception = None → 1`,
`success = false, exception present → 2`; the mapping covers every result
shape, and `main` always ends by raising `SystemExit` with the mapped code. -/
theorem c1_exit_code_mapping :
    (∀ exc : Option String, mainExitCode ⟨true, exc⟩ = 0) ∧
    (mainExitCode ⟨false, none⟩ = 1) ∧
    (∀ e : String, mainExitCode ⟨false, some e⟩ = 2) ∧
    (∀ r : DbtRunnerResult,
      mainExitCode r = 0 ∨ mainExitCode r = 1 ∨ mainExitCode r = 2) ∧
    (∀ (argv : List String) (invoke : List String → DbtRunnerResult),
      (DbtPy.main argv invoke).getLast? =
        some (.exitWith (mainExitCode (invoke (argv.drop 1))))) := by
  refine ⟨fun exc => rfl, rfl, fun e => rfl, ?_, fun argv invoke => rfl⟩
  intro r
  by_cases hs : r.success <;> by_cases he : r.exception = none <;>
    simp [mainExitCode, hs, he]

/-- C7: when `DBT_PY_PACKAGE_ROOT` is unset the package reference defaults to
the literal `"custom"`, and when `DBT_PY_PACKAGE_NAME` is unset the exposed
name defaults to the resolved package reference. -/
theorem c7_config_defaults :
    (∀ nameVar : Option String, packageRoot ⟨none, nameVar⟩ = "custom") ∧
    (∀ rootVar : Option String,
      packageName ⟨rootVar, none⟩ = packageRoot ⟨rootVar, none⟩) :=
  ⟨fun _ => rfl, fun _ => rfl⟩

/-- C9: an environment variable set to the empty string behaves exactly like
an unset variable: an empty `DBT_PY_PACKAGE_ROOT` yields the default
`"custom"`, and an empty `DBT_PY_PACKAGE_NAME` falls back to the resolved
package root. -/
theorem c9_empty_env_like_unset :
    (∀ nameVar : Option String,
      packageRoot ⟨some "", nameVar⟩ = packageRoot ⟨none, nameVar⟩ ∧
      packageRoot ⟨some "", nameVar⟩ = "custom") ∧
    (∀ rootVar : Option String,
      packageName ⟨rootVar, some ""⟩ = packageName ⟨rootVar, none⟩ ∧
      packageName ⟨rootVar, some ""⟩ = packageRoot ⟨rootVar, some ""⟩) := by
  constructor <;> intro v <;> exact ⟨rfl, rfl⟩

/-- C8: in every run of `main`, the shim override is installed first (before
the host invoker runs), the host invoker is called exactly once, with
`sys.argv[1:]`, and the exit code is emitted last, after the invocation. -/
theorem c8_control_flow (argv : List String)
    (invoke : List String → DbtRunnerResult) :
    ((DbtPy.main argv invoke).head? = some MainEvent.installShimOverride) ∧
    ((DbtPy.main argv invoke)[1]? = some (MainEvent.invokeDbt (argv.drop 1))) ∧
    ((DbtPy.main argv invoke).filter (fun e => match e with
        | MainEvent.invokeDbt _ => true
        | _ => false) = [MainEvent.invokeDbt (argv.drop 1)]) ∧
    (((DbtPy.main argv invoke).take 2).filter (fun e => match e with
        | MainEvent.exitWith _ => true
        | _ => false) = []) ∧
    ((DbtPy.main argv invoke).getLast? =
      some (MainEvent.exitWith (mainExitCode (invoke (argv.drop 1))))) :=
  ⟨rfl, rfl, rfl, rfl, rfl⟩

/-- C2: when the configured package cannot be found, the registrar abandons
the whole operation atomically: it returns the host registry unchanged (so no
entry is written under the exposed name) and returns normally (the warning is
printed, nothing is raised). -/
theorem c2_not_found_atomic (env : Env) (world : String → PyTree)
    (host : Registry) (m : String)
    (h : import_submodules (world (packageRoot env)) (packageRoot env) true =
      .error (.moduleNotFound m)) :
    get_context_modules_shim env world host = .ok host [warningText] := by
  simp [get_context_modules_shim, h]

/-- Witness for `c2_not_found_atomic`: default configuration, the package
`custom` missing, a host registry with one entry. -/
theorem c2_not_found_atomic_witness :
    (import_submodules
        ((fun _ => PyTree.raises (PyExc.moduleNotFound "No module named custom"))
          (packageRoot ⟨none, none⟩))
        (packageRoot ⟨none, none⟩) true =
      .error (.moduleNotFound "No module named custom")) ∧
    get_context_modules_shim ⟨none, none⟩
        (fun _ => PyTree.raises (PyExc.moduleNotFound "No module named custom"))
        [("re", RegVal.hostEntry "re")] =
      .ok [("re", RegVal.hostEntry "re")] [warningText] :=
  ⟨rfl,
    c2_not_found_atomic ⟨none, none⟩
      (fun _ => PyTree.raises (PyExc.moduleNotFound "No module named custom"))
      [("re", RegVal.hostEntry "re")] "No module named custom" rfl⟩

/-- C4: whenever the shim returns a registry, every host entry at a key other
than the configured exposed name is present with its original value — the
shim only ever touches the single entry at the exposed name. -/
theorem c4_frame (env : Env) (world : String → PyTree) (host : Registry)
    (k : String) (hk : k ≠ packageName env) (r : Registry)
    (printed : List String)
    (h : get_context_modules_shim env world host = .ok r printed) :
    pyDictGet r k = pyDictGet host k := by
  cases hi : import_submodules (world (packageRoot env)) (packageRoot env) true with
  | ok l =>
    simp only [get_context_modules_shim, hi, ShimOutcome.ok.injEq] at h
    rw [← h.1]
    exact pyDictGet_pyDictSet_ne host (packageName env) k _ hk
  | error e =>
    cases e with
    | moduleNotFound m =>
      simp only [get_context_modules_shim, hi, ShimOutcome.ok.injEq] at h
      rw [← h.1]
    | other m =>
      simp [get_context_modules_shim, hi] at h

/-- Witness for `c4_frame`: default configuration, importable `custom`
package, host entry `re` untouched by the merge. -/
theorem c4_frame_witness :
    ("re" ≠ packageName ⟨none, none⟩) ∧
    (get_context_modules_shim ⟨none, none⟩ (fun _ => PyTree.module)
        [("re", RegVal.hostEntry "re")] =
      .ok [("re", RegVal.hostEntry "re"), ("custom", RegVal.moduleEntry PyTree.module)] []) ∧
    pyDictGet [("re", RegVal.hostEntry "re"), ("custom", RegVal.moduleEntry PyTree.module)] "re" =
      pyDictGet [("re", RegVal.hostEntry "re")] "re" :=
  ⟨by decide, rfl,
    c4_frame ⟨none, none⟩ (fun _ => PyTree.module) [("re", RegVal.hostEntry "re")]
      "re" (by decide)
      [("re", RegVal.hostEntry "re"), ("custom", RegVal.moduleEntry PyTree.module)]
      [] rfl⟩

/-- C10: only `ModuleNotFoundError` is caught and degraded to the printed
warning (wherever in the package tree it arises); any other exception raised
while importing the package or its submodules propagates out of the registrar
uncaught. -/
theorem c10_exception_filtering (env : Env) (world : String → PyTree)
    (host : Registry) :
    (∀ m : String,
      import_submodules (world (packageRoot env)) (packageRoot env) true =
          .error (.moduleNotFound m) →
        get_context_modules_shim env world host = .ok host [warningText]) ∧
    (∀ m : String,
      import_submodules (world (packageRoot env)) (packageRoot env) true =
          .error (.other m) →
        get_context_modules_shim env world host = .raised (.other m) []) := by
  constructor <;> intro m h <;> simp [get_context_modules_shim, h]

/-- Witness for `c10_exception_filtering`: a submodule whose import raises
`ModuleNotFoundError` is caught; a submodule whose import-time code raises
any other exception propagates. -/
theorem c10_exception_filtering_witness :
    (import_submodules
        (PyTree.package [("sub", PyTree.raises (PyExc.moduleNotFound "No module named dep"))])
        "custom" true = .error (.moduleNotFound "No module named dep")) ∧
    (get_context_modules_shim ⟨none, none⟩
        (fun _ => PyTree.package
          [("sub", PyTree.raises (PyExc.moduleNotFound "No module named dep"))])
        [] = .ok [] [warningText]) ∧
    (import_submodules
        (PyTree.package [("sub", PyTree.raises (PyExc.other "boom at import time"))])
        "custom" true = .error (.other "boom at import time")) ∧
    (get_context_modules_shim ⟨none, none⟩
        (fun _ => PyTree.package
          [("sub", PyTree.raises (PyExc.other "boom at import time"))])
        [] = .raised (.other "boom at import time") []) :=
  ⟨rfl,
    (c10_exception_filtering ⟨none, none⟩
      (fun _ => PyTree.package
        [("sub", PyTree.raises (PyExc.moduleNotFound "No module named dep"))])
      []).1 "No module named dep" rfl,
    rfl,
    (c10_exception_filtering ⟨none, none⟩
      (fun _ => PyTree.package
        [("sub", PyTree.raises (PyExc.other "boom at import time"))])
      []).2 "boom at import time" rfl⟩

/-- C3: the `functools.cache` memoization is keyed by nothing.  Once a first
call has populated the cache with registry `r`, a repeated call — with the
same configuration or with ANY other configuration, import world, or host
registry — returns the cached `r` without re-running the body (no re-scan, no
printing): a changed environment variable is NOT picked up. -/
theorem c3_memoization_keyed_by_nothing (env env2 : Env)
    (world world2 : String → PyTree) (host host2 : Registry)
    (out : ShimOutcome) (r : Registry)
    (h : get_context_modules_shim_cached none env world host = (out, some r)) :
    (∃ printed, out = .ok r printed) ∧
    get_context_modules_shim_cached (some r) env world host = (.ok r [], some r) ∧
    get_context_modules_shim_cached (some r) env2 world2 host2 = (.ok r [], some r) := by
  refine ⟨?_, rfl, rfl⟩
  cases hs : get_context_modules_shim env world host with
  | ok r' p =>
    simp only [get_context_modules_shim_cached, hs, Prod.mk.injEq,
      Option.some.injEq] at h
    exact ⟨p, by rw [← h.1, h.2]⟩
  | raised e p =>
    simp [get_context_modules_shim_cached, hs] at h

/-- Witness for `c3_memoization_keyed_by_nothing`: a first call under the
default configuration caches the merged registry; a second call after the
environment has changed (and the new package would not even import) still
returns the old cached registry. -/
theorem c3_memoization_keyed_by_nothing_witness :
    (get_context_modules_shim_cached none ⟨none, none⟩ (fun _ => PyTree.module) [] =
      (.ok [("custom", RegVal.moduleEntry PyTree.module)] [],
        some [("custom", RegVal.moduleEntry PyTree.module)])) ∧
    ((∃ printed, (ShimOutcome.ok [("custom", RegVal.moduleEntry PyTree.module)] []) =
        .ok [("custom", RegVal.moduleEntry PyTree.module)] printed) ∧
      get_context_modules_shim_cached (some [("custom", RegVal.moduleEntry PyTree.module)])
          ⟨none, none⟩ (fun _ => PyTree.module) [] =
        (.ok [("custom", RegVal.moduleEntry PyTree.module)] [],
          some [("custom", RegVal.moduleEntry PyTree.module)]) ∧
      get_context_modules_shim_cached (some [("custom", RegVal.moduleEntry PyTree.module)])
          ⟨some "newpkg", some "newname"⟩
          (fun _ => PyTree.raises (PyExc.moduleNotFound "No module named newpkg"))
          [("x", RegVal.hostEntry "x")] =
        (.ok [("custom", RegVal.moduleEntry PyTree.module)] [],
          some [("custom", RegVal.moduleEntry PyTree.module)])) :=
  ⟨rfl,
    c3_memoization_keyed_by_nothing ⟨none, none⟩ ⟨some "newpkg", some "newname"⟩
      (fun _ => PyTree.module)
      (fun _ => PyTree.raises (PyExc.moduleNotFound "No module named newpkg"))
      [] [("x", RegVal.hostEntry "x")]
      (.ok [("custom", RegVal.moduleEntry PyTree.module)] [])
      [("custom", RegVal.moduleEntry PyTree.module)] rfl⟩

/-- C6: for an importable package, `_import_submodules` imports exactly the
submodules and subpackages reachable from it (no depth limit other than the
tree), and when that succeeds the shim imports the top-level package and
inserts it into the host registry under the exposed name. -/
theorem c6_recursive_import_then_register (t : PyTree) (pn : String)
    (l : List (String × PyTree)) (env : Env) (world : String → PyTree)
    (host : Registry) (res : List (String × PyTree))
    (himp : import_submodules t pn true = .ok l)
    (hshim : import_submodules (world (packageRoot env)) (packageRoot env) true =
      .ok res) :
    l.map Prod.fst = reachableNames t pn ∧
    get_context_modules_shim env world host =
      .ok (pyDictSet host (packageName env)
        (.moduleEntry (world (packageRoot env)))) [] :=
  ⟨import_submodules_ok_keys t pn l himp,
    by simp [get_context_modules_shim, hshim]⟩

/-- Witness for `c6_recursive_import_then_register`: a package with a nested
subpackage; all reachable submodules are imported in discovery order, and the
top-level package is registered under the default exposed name `custom`. -/
theorem c6_recursive_import_then_register_witness :
    (import_submodules
        (PyTree.package [("b", PyTree.package [("c", PyTree.module)])]) "p" true =
      .ok [("p.b", PyTree.package [("c", PyTree.module)]), ("p.b.c", PyTree.module)]) ∧
    (import_submodules
        ((fun _ => PyTree.package [("b", PyTree.package [("c", PyTree.module)])])
          (packageRoot ⟨none, none⟩))
        (packageRoot ⟨none, none⟩) true =
      .ok [("custom.b", PyTree.package [("c", PyTree.module)]),
        ("custom.b.c", PyTree.module)]) ∧
    ([("p.b", PyTree.package [("c", PyTree.module)]), ("p.b.c", PyTree.module)].map
        Prod.fst =
      reachableNames (PyTree.package [("b", PyTree.package [("c", PyTree.module)])]) "p" ∧
      get_context_modules_shim ⟨none, none⟩
          (fun _ => PyTree.package [("b", PyTree.package [("c", PyTree.module)])]) [] =
        .ok (pyDictSet [] (packageName ⟨none, none⟩)
          (.moduleEntry ((fun _ => PyTree.package [("b", PyTree.package [("c", PyTree.module)])])
            (packageRoot ⟨none, none⟩)))) []) :=
  ⟨rfl, rfl,
    c6_recursive_import_then_register
      (PyTree.package [("b", PyTree.package [("c", PyTree.module)])]) "p"
      [("p.b", PyTree.package [("c", PyTree.module)]), ("p.b.c", PyTree.module)]
      ⟨none, none⟩
      (fun _ => PyTree.package [("b", PyTree.package [("c", PyTree.module)])]) []
      [("custom.b", PyTree.package [("c", PyTree.module)]), ("custom.b.c", PyTree.module)]
      rfl rfl⟩

/-- C5 (divergence witness): when the configured package `mypkg` cannot be
imported, the shim prints one fixed warning line.  That line does not contain
the configured package name, nor the underlying import error text — it is the
same constant string for every configuration — contradicting the claim that
the warning names the package and includes the import error. -/
theorem c5_warning_is_fixed_and_lacks_details :
    (get_context_modules_shim ⟨some "mypkg", none⟩
        (fun _ => PyTree.raises (PyExc.moduleNotFound "No module named mypkg")) [] =
      .ok [] [warningText]) ∧
    strContains warningText "mypkg" = false ∧
    strContains warningText "No module named mypkg" = false ∧
    strContains warningText "no custom package was found" = true :=
  ⟨rfl, rfl, rfl, rfl⟩
